import Mathlib

/-!
Shallow embedding of the result-container hierarchy and the training/test
executor of the `zensols.deeplearn` package
(`src/python/zensols/deeplearn/result/domain.py`,
`src/python/zensols/deeplearn/model/executor.py`,
`src/python/zensols/deeplearn/model/lifecycle.py`).

Numeric values (losses, tensor entries) are modelled as rationals; Python
exceptions are modelled with `Except`.
-/

/-- Errors raised by the result containers: `NoResultsException`,
Python `ValueError` (e.g. `min()` on an empty sequence, `np.concatenate` of an
empty list) and Python `ZeroDivisionError`. -/
inductive ResError where
  | noResults
  | valueError
  | zeroDivision
deriving DecidableEq, Repr

/-- The slice of a `Batch` visible to the result containers and the executor:
a stable identifier (`batch.id`), the data-point identifiers
(`batch.data_point_ids`), the data-point count (`batch.size()`), and the label
tensor (`batch.get_labels()`, one value per data point). -/
structure Batch where
  id : Nat
  data_point_ids : List Nat
  size : Nat
  labels : List Rat
deriving DecidableEq, Repr

/-- `EpochResult` (result/domain.py): per-epoch accumulators. -/
structure EpochResult where
  index : Int
  split_type : String
  loss_updates : List Rat := []
  id_updates : List (List Nat) := []
  prediction_updates : List (List Rat × List Rat) := []
  batch_ids : List Nat := []
  n_data_points : List Nat := []
deriving DecidableEq, Repr

/-- `EpochResult.update`: appends `loss.item() * batch.size()` to
`loss_updates`, `label_shape[0]` to `n_data_points`, the host copy of
`torch.stack((preds, labels), 0)` (row 0 = predictions, row 1 = labels) to
`prediction_updates`, `batch.id` to `batch_ids` and `batch.data_point_ids` to
`id_updates`. -/
def EpochResult.update (e : EpochResult) (batch : Batch) (loss : Rat)
    (labels preds : List Rat) (label_shape0 : Nat) : EpochResult :=
  { e with
    loss_updates := e.loss_updates ++ [loss * (batch.size : Rat)],
    n_data_points := e.n_data_points ++ [label_shape0],
    prediction_updates := e.prediction_updates ++ [(preds, labels)],
    batch_ids := e.batch_ids ++ [batch.id],
    id_updates := e.id_updates ++ [batch.data_point_ids] }

/-- `EpochResult.get_ids`: flattened concatenation of `id_updates`. -/
def EpochResult.get_ids (e : EpochResult) : List Nat :=
  e.id_updates.flatten

/-- `ResultsContainer.__len__` specialised to `EpochResult`:
`len(self.get_ids())`. -/
def EpochResult.len (e : EpochResult) : Nat :=
  e.get_ids.length

/-- `ResultsContainer.contains_results`: `len(self) > 0`. -/
def EpochResult.contains_results (e : EpochResult) : Bool :=
  decide (0 < e.len)

/-- `EpochResult.get_loss`: `sum(self.loss_updates) / len(self)`; a zero
`len(self)` raises `ZeroDivisionError` in Python. -/
def EpochResult.get_loss (e : EpochResult) : Except ResError Rat :=
  if e.len = 0 then .error .zeroDivision
  else .ok (e.loss_updates.sum / (e.len : Rat))

/-- `EpochResult.get_losses`: the `loss_updates` list. -/
def EpochResult.get_losses (e : EpochResult) : List Rat :=
  e.loss_updates

/-- `EpochResult.get_outcomes`: `np.concatenate(self.prediction_updates, 1)`,
kept as the pair (concatenated row 0 = predictions, concatenated row 1 =
labels); `np.concatenate` of an empty list raises `ValueError`. -/
def EpochResult.get_outcomes (e : EpochResult) : Except ResError (List Rat × List Rat) :=
  if e.prediction_updates = [] then .error .valueError
  else .ok ((e.prediction_updates.map Prod.fst).flatten,
            (e.prediction_updates.map Prod.snd).flatten)

/-- Metric triple produced by `ResultsContainer.compute_metrics`. -/
structure Metrics where
  f1 : Rat
  precision : Rat
  recall_score : Rat
deriving DecidableEq, Repr

/-- Division with sklearn's zero-division convention (an undefined
precision/recall/F1 is reported as 0). -/
def safeDiv (a b : Rat) : Rat :=
  if b = 0 then 0 else a / b

/-- Count of positions where the true value and the prediction both equal
class `c`. -/
def countTP (c : Rat) (pairs : List (Rat × Rat)) : Nat :=
  (pairs.filter (fun x => decide (x.1 = c) && decide (x.2 = c))).length

/-- Count of positions predicted as class `c` whose true value differs. -/
def countFP (c : Rat) (pairs : List (Rat × Rat)) : Nat :=
  (pairs.filter (fun x => decide (x.1 ≠ c) && decide (x.2 = c))).length

/-- Count of positions whose true value is class `c` but predicted
otherwise. -/
def countFN (c : Rat) (pairs : List (Rat × Rat)) : Nat :=
  (pairs.filter (fun x => decide (x.1 = c) && decide (x.2 ≠ c))).length

/-- Per-class precision/recall/F1 from true/false positive/negative counts,
via the standard formulas. -/
def classMetrics (tp fp fn : Nat) : Metrics :=
  let p := safeDiv (tp : Rat) ((tp : Rat) + (fp : Rat))
  let r := safeDiv (tp : Rat) ((tp : Rat) + (fn : Rat))
  ⟨safeDiv (2 * p * r) (p + r), p, r⟩

/-- `ResultsContainer.compute_metrics(average, y_true, y_pred)`: F1, precision
and recall over the concatenated label/prediction vectors, micro- or
macro-averaged by the standard formulas (sklearn's `f1_score`,
`precision_score`, `recall_score`). -/
def compute_metrics (average : String) (y_true y_pred : List Rat) : Metrics :=
  let pairs := y_true.zip y_pred
  let classes := (y_true ++ y_pred).dedup
  if average = "micro" then
    let tp := (classes.map (fun c => countTP c pairs)).sum
    let fp := (classes.map (fun c => countFP c pairs)).sum
    let fn := (classes.map (fun c => countFN c pairs)).sum
    classMetrics tp fp fn
  else
    let ms := classes.map (fun c => classMetrics (countTP c pairs) (countFP c pairs) (countFN c pairs))
    ⟨safeDiv (ms.map Metrics.f1).sum (classes.length : Rat),
     safeDiv (ms.map Metrics.precision).sum (classes.length : Rat),
     safeDiv (ms.map Metrics.recall_score).sum (classes.length : Rat)⟩

/-- `losses.index(min(losses))` as in `ResultsContainer.convergence`:
`min` of an empty sequence raises `ValueError`; otherwise the first index of
the minimum. -/
def convergence_of (losses : List Rat) : Except ResError Nat :=
  match losses with
  | [] => .error .valueError
  | x :: xs =>
    let lowest := xs.foldl min x
    .ok (go (x :: xs) lowest)
where
  go : List Rat → Rat → Nat
    | [], _ => 0
    | y :: ys, v => if y = v then 0 else go ys v + 1

/-- Property `ids` (ResultsContainer): `_assert_results` then `get_ids`. -/
def EpochResult.ids (e : EpochResult) : Except ResError (List Nat) :=
  if e.contains_results then .ok e.get_ids else .error .noResults

/-- Property `outcomes` (ResultsContainer): `_assert_results` then
`get_outcomes`. -/
def EpochResult.outcomes (e : EpochResult) : Except ResError (List Rat × List Rat) :=
  if e.contains_results then e.get_outcomes else .error .noResults

/-- Property `labels` (ResultsContainer): `_assert_results`, then row
`LABELS_INDEX = 1` of `outcomes`. -/
def EpochResult.labels (e : EpochResult) : Except ResError (List Rat) :=
  if e.contains_results then e.outcomes.map Prod.snd else .error .noResults

/-- Property `predictions` (ResultsContainer): `_assert_results`, then row
`PREDICTIONS_INDEX = 0` of `outcomes`. -/
def EpochResult.predictions (e : EpochResult) : Except ResError (List Rat) :=
  if e.contains_results then e.outcomes.map Prod.fst else .error .noResults

/-- Property `loss` (ResultsContainer): `_assert_results` then `get_loss`. -/
def EpochResult.loss (e : EpochResult) : Except ResError Rat :=
  if e.contains_results then e.get_loss else .error .noResults

/-- Property `losses` (ResultsContainer): returns `get_losses()` with no
empty-container guard. -/
def EpochResult.losses (e : EpochResult) : Except ResError (List Rat) :=
  .ok e.get_losses

/-- Property `convergence` (ResultsContainer): index of the minimum of
`losses` (no empty-container guard; `min` of an empty list raises
`ValueError`). -/
def EpochResult.convergence (e : EpochResult) : Except ResError Nat := do
  let ls ← e.losses
  convergence_of ls

/-- Property `micro_metrics` (ResultsContainer): `_assert_results`, then the
micro-averaged metrics over `labels`/`predictions`. -/
def EpochResult.micro_metrics (e : EpochResult) : Except ResError Metrics :=
  if e.contains_results then do
    let l ← e.labels
    let p ← e.predictions
    pure (compute_metrics "micro" l p)
  else .error .noResults

/-- Property `macro_metrics` (ResultsContainer), the macro-averaged metrics
(named `metricsMac` here). -/
def EpochResult.metricsMac (e : EpochResult) : Except ResError Metrics :=
  if e.contains_results then do
    let l ← e.labels
    let p ← e.predictions
    pure (compute_metrics "macro" l p)
  else .error .noResults

/-- Sequential effectful map: Python's `map` consumed by `sum`/`tuple`, where
the first raised exception propagates. -/
def mapExcept {a b e : Type} (f : a -> Except e b) : List a -> Except e (List b)
  | [] => .ok []
  | x :: xs => do
    let y <- f x
    let ys <- mapExcept f xs
    pure (y :: ys)

/-- `DatasetResult` (result/domain.py): a list of `EpochResult`s plus start
and end timestamps (clock values modelled as naturals). -/
structure DatasetResult where
  results : List EpochResult := []
  start_time : Option Nat := none
  end_time : Option Nat := none
deriving DecidableEq, Repr

/-- `DatasetResult.get_ids`: concatenation of the contained epochs' ids. -/
def DatasetResult.get_ids (d : DatasetResult) : List Nat :=
  (d.results.map EpochResult.get_ids).flatten

/-- `ResultsContainer.__len__` specialised to `DatasetResult`. -/
def DatasetResult.len (d : DatasetResult) : Nat :=
  d.get_ids.length

/-- `ResultsContainer.contains_results` for `DatasetResult`. -/
def DatasetResult.contains_results (d : DatasetResult) : Bool :=
  decide (0 < d.len)

/-- `DatasetResult.start`: raises when the container already has results,
otherwise records the start timestamp. -/
def DatasetResult.start (d : DatasetResult) (now : Nat) : Except String DatasetResult :=
  if d.contains_results then .error "container already contains results"
  else .ok { d with start_time := some now }

/-- `DatasetResult.end`: records the end timestamp. -/
def DatasetResult.endPhase (d : DatasetResult) (now : Nat) : DatasetResult :=
  { d with end_time := some now }

/-- `DatasetResult.append`. -/
def DatasetResult.append (d : DatasetResult) (er : EpochResult) : DatasetResult :=
  { d with results := d.results ++ [er] }

/-- `DatasetResult.get_loss`: `loss_sum = sum(r.loss for r in results)` (the
guarded `loss` property of each epoch, evaluated first), then
`batch_sum = sum(len(r) for r in results)`, returning
`0 if batch_sum == 0 else loss_sum / batch_sum`. -/
def DatasetResult.get_loss (d : DatasetResult) : Except ResError Rat := do
  let ls ← mapExcept EpochResult.loss d.results
  let batch_sum := (d.results.map EpochResult.len).sum
  pure (if batch_sum = 0 then 0 else ls.sum / (batch_sum : Rat))

/-- `DatasetResult.get_losses`: the guarded `loss` of each contained epoch. -/
def DatasetResult.get_losses (d : DatasetResult) : Except ResError (List Rat) :=
  mapExcept EpochResult.loss d.results

/-- Property `loss` for `DatasetResult`. -/
def DatasetResult.loss (d : DatasetResult) : Except ResError Rat :=
  if d.contains_results then d.get_loss else .error .noResults

/-- Property `losses` for `DatasetResult` (no empty-container guard). -/
def DatasetResult.losses (d : DatasetResult) : Except ResError (List Rat) :=
  d.get_losses

/-- Property `convergence` for `DatasetResult`. -/
def DatasetResult.convergence (d : DatasetResult) : Except ResError Nat := do
  let ls ← d.losses
  convergence_of ls

/-- `DatasetResult.get_outcomes`: `np.concatenate` of the epochs' outcome
matrices along the batch axis. -/
def DatasetResult.get_outcomes (d : DatasetResult) : Except ResError (List Rat × List Rat) := do
  let prs ← mapExcept EpochResult.outcomes d.results
  if prs = [] then .error .valueError
  else .ok ((prs.map Prod.fst).flatten, (prs.map Prod.snd).flatten)

/-- Property `ids` for `DatasetResult`. -/
def DatasetResult.ids (d : DatasetResult) : Except ResError (List Nat) :=
  if d.contains_results then .ok d.get_ids else .error .noResults

/-- Property `outcomes` for `DatasetResult`. -/
def DatasetResult.outcomes (d : DatasetResult) : Except ResError (List Rat × List Rat) :=
  if d.contains_results then d.get_outcomes else .error .noResults

/-- Property `labels` for `DatasetResult`. -/
def DatasetResult.labels (d : DatasetResult) : Except ResError (List Rat) :=
  if d.contains_results then d.outcomes.map Prod.snd else .error .noResults

/-- Property `predictions` for `DatasetResult`. -/
def DatasetResult.predictions (d : DatasetResult) : Except ResError (List Rat) :=
  if d.contains_results then d.outcomes.map Prod.fst else .error .noResults

/-- Property `micro_metrics` for `DatasetResult`. -/
def DatasetResult.micro_metrics (d : DatasetResult) : Except ResError Metrics :=
  if d.contains_results then do
    let l ← d.labels
    let p ← d.predictions
    pure (compute_metrics "micro" l p)
  else .error .noResults

/-- Property `macro_metrics` for `DatasetResult` (named `metricsMac` here). -/
def DatasetResult.metricsMac (d : DatasetResult) : Except ResError Metrics :=
  if d.contains_results then do
    let l ← d.labels
    let p ← d.predictions
    pure (compute_metrics "macro" l p)
  else .error .noResults

/-- Modelled from the spec: the split-name constant `ModelResult.TRAIN_DS_NAME`
is referenced by the executor but defined in a result-domain module version
absent from the source tree; `domain.py` fixes the dataset keys as
`'train validation test'.split()`. -/
def TRAIN_DS_NAME : String := "train"

/-- Modelled from the spec: companion of `TRAIN_DS_NAME` (see there). -/
def VALIDATION_DS_NAME : String := "validation"

/-- Modelled from the spec: companion of `TRAIN_DS_NAME` (see there). -/
def TEST_DS_NAME : String := "test"

/-- `ModelResult` restricted to its dataset triple
`{'train': ..., 'validation': ..., 'test': ...}`; the configuration snapshot,
name, settings and process-wide run index are not referenced by the modelled
operations and are omitted. -/
structure ModelResult where
  train : DatasetResult := {}
  validation : DatasetResult := {}
  test : DatasetResult := {}
deriving DecidableEq, Repr

/-- `ModelResult.reset(name)`: `self.dataset_result[name] = DatasetResult()`;
only the three split keys exist. -/
def ModelResult.reset (mr : ModelResult) (name : String) : ModelResult :=
  if name = "train" then { mr with train := {} }
  else if name = "validation" then { mr with validation := {} }
  else if name = "test" then { mr with test := {} }
  else mr

/-- The arguments of one `EpochResult.update` call. -/
structure UpdateArgs where
  batch : Batch
  loss : Rat
  labels : List Rat
  preds : List Rat
  label_shape0 : Nat
deriving DecidableEq, Repr

/-- A sequence of `EpochResult.update` calls. -/
def applyUpdates (e : EpochResult) (us : List UpdateArgs) : EpochResult :=
  us.foldl (fun e u => e.update u.batch u.loss u.labels u.preds u.label_shape0) e

/-- `ModelExecutor._iter_batch` restricted to its result bookkeeping: the
labels are taken from the batch, `label_shapes = labels.shape` is captured
before encoding, and `epoch_result.update(batch, loss, labels, preds,
label_shapes)` is applied.  The forward pass of the external module, the
criterion value and the outcome decoding (`_decode_outcomes`) are supplied as
oracle inputs `loss` and `preds`; `_encode_labels`' float cast is the identity
on rationals and nominal labels are passed through unchanged.  The raw loss is
returned as in the source. -/
def iter_batch (er : EpochResult) (batch : Batch) (loss : Rat)
    (preds : List Rat) : EpochResult × Rat :=
  let labels := batch.labels
  let label_shape0 := labels.length
  (er.update batch loss labels preds label_shape0, loss)

/-- One phase loop (`for batch in self._to_iter(...): self._iter_batch(...)`)
folding `iter_batch` over the batches, with per-batch criterion losses `f` and
decoded predictions `g`. -/
def run_phase (er0 : EpochResult) (f : Batch → Rat) (g : Batch → List Rat)
    (batches : List Batch) : EpochResult :=
  batches.foldl (fun er b => (iter_batch er b (f b) (g b)).1) er0

/-- Contents of the update file as seen by `json.load`: a record with an
integer-convertible `epoch` field, well-formed JSON without an `epoch` field,
or anything that raises during open/parse/`int(...)` (empty file, malformed
JSON, non-integer epoch). -/
inductive FileContent where
  | withEpoch (e : Int)
  | wellFormedNoEpoch
  | malformed
deriving DecidableEq, Repr

/-- Python's `sys.maxsize` on a 64-bit platform. -/
def maxsize : Int := 2 ^ 63 - 1

/-- `ModelExecutor._parse_early_stop`: reads the update file when a path is
configured and the file exists, unlinking it afterwards regardless of
well-formedness.  Returns the epoch value (`-1` when nothing applies,
`sys.maxsize` on a parse failure) together with the resulting file-system
state (`none` = the update file does not exist). -/
def parse_early_stop (hasPath : Bool) (fs : Option FileContent) :
    Int × Option FileContent :=
  if hasPath then
    match fs with
    | none => (-1, none)
    | some (.withEpoch e) => (e, none)
    | some .wellFormedNoEpoch => (-1, none)
    | some .malformed => (maxsize, none)
  else (-1, fs)

/-- `UpdateAction` (lifecycle.py). -/
inductive UpdateAction where
  | ITERATE_EPOCH
  | SET_EPOCH
  | STOP
deriving DecidableEq, Repr

/-- `LifeCycleStatus` (lifecycle.py). -/
structure LifeCycleStatus where
  action : UpdateAction
  epoch : Option Int := none
deriving DecidableEq, Repr

/-- `LifeCycleManager._read_status`: same file protocol as
`parse_early_stop`, expressed as a `LifeCycleStatus`; returns the status and
the resulting file-system state. -/
def read_status (hasPath : Bool) (fs : Option FileContent) :
    LifeCycleStatus × Option FileContent :=
  if hasPath then
    match fs with
    | none => (⟨.ITERATE_EPOCH, none⟩, none)
    | some (.withEpoch e) => (⟨.SET_EPOCH, some e⟩, none)
    | some .wellFormedNoEpoch => (⟨.ITERATE_EPOCH, none⟩, none)
    | some .malformed => (⟨.STOP, none⟩, none)
  else (⟨.ITERATE_EPOCH, none⟩, fs)

/-- Effects on the tqdm progress bar. -/
inductive PbarEv where
  | reset
  | advance (n : Int)
deriving DecidableEq, Repr

/-- Result of the epoch-boundary update logic of `ModelExecutor._train`
(lines 721-731). -/
structure EpochAdvance where
  epoch : Int
  fs : Option FileContent
  pbar : List PbarEv
deriving DecidableEq, Repr

/-- Epoch-boundary logic of `ModelExecutor._train`:
`epoch_val = self._parse_early_stop()`; when `epoch_val > 0` the epoch counter
becomes `epoch_val` and an existing progress bar is reset and advanced by it,
otherwise the counter is incremented and an existing progress bar advanced by
one. -/
def epoch_update (hasPath hasPbar : Bool) (fs : Option FileContent)
    (epoch : Int) : EpochAdvance :=
  let r := parse_early_stop hasPath fs
  if r.1 > 0 then
    ⟨r.1, r.2, if hasPbar then [.reset, .advance r.1] else []⟩
  else
    ⟨epoch + 1, r.2, if hasPbar then [.advance 1] else []⟩

/-- Observable events of one training epoch, in program order. -/
inductive TrainEvent where
  | trainBatch (id : Nat)
  | validBatch (id : Nat)
  | schedulerStep (v : Rat)
  | saveCheckpoint
  | pollUpdate
deriving DecidableEq, Repr

/-- The executor settings consulted by `_train`. -/
structure TrainCfg where
  epochs : Int
  hasScheduler : Bool
  hasPath : Bool
  hasPbar : Bool
deriving DecidableEq, Repr

/-- `valid_loss < valid_loss_min` where the running minimum starts as
`np.Inf` (modelled as `none`). -/
def ltInf (v : Rat) (m : Option Rat) : Bool :=
  match m with
  | none => true
  | some x => decide (v < x)

/-- Modelled from the spec: `EpochResult.ave_loss` is referenced by the
executor but defined in a result-domain module version absent from the source
tree; the spec defines it as Σ loss-contributions / |batch-losses|. -/
def EpochResult.ave_loss (e : EpochResult) : Rat :=
  e.loss_updates.sum / (e.loss_updates.length : Rat)

/-- Outcome of one iteration of the `while epoch < n_epochs` training loop. -/
structure EpochOutcome where
  next_epoch : Int
  next_min : Option Rat
  next_fs : Option FileContent
  pbar_events : List PbarEv
  train_result : EpochResult
  valid_result : EpochResult
  events : List TrainEvent
deriving Repr

/-- One iteration of `ModelExecutor._train`'s epoch loop: train phase over
`train`, validation phase over `valid` accumulating
`vloss += loss.item() * batch.size()` then `vloss /= len(valid)`, one
`scheduler.step(vloss)` when a scheduler is configured, checkpoint save
(`model_manager._save_executor`) exactly when
`valid_epoch_result.ave_loss < valid_loss_min`, then the update-file poll
(`_parse_early_stop`) and the epoch-counter update.  The criterion losses and
decoded predictions come from the oracles `lossOf`/`predsOf` keyed by epoch
and batch id; `fsNow` is the update-file state at the poll. -/
def train_epoch_body (cfg : TrainCfg) (lossOf : Int → Nat → Rat)
    (predsOf : Int → Nat → List Rat) (train valid : List Batch)
    (fsNow : Option FileContent) (epoch : Int) (vmin : Option Rat) :
    EpochOutcome :=
  let ter := run_phase ⟨epoch, TRAIN_DS_NAME, [], [], [], [], []⟩
    (fun b => lossOf epoch b.id) (fun b => predsOf epoch b.id) train
  let ver := run_phase ⟨epoch, VALIDATION_DS_NAME, [], [], [], [], []⟩
    (fun b => lossOf epoch b.id) (fun b => predsOf epoch b.id) valid
  let vloss := (valid.map (fun b => lossOf epoch b.id * (b.size : Rat))).sum /
    (valid.length : Rat)
  let decreased := ltInf ver.ave_loss vmin
  let adv := epoch_update cfg.hasPath cfg.hasPbar fsNow epoch
  { next_epoch := adv.epoch,
    next_min := if decreased then some ver.ave_loss else vmin,
    next_fs := adv.fs,
    pbar_events := adv.pbar,
    train_result := ter,
    valid_result := ver,
    events := train.map (fun b => .trainBatch b.id)
      ++ valid.map (fun b => .validBatch b.id)
      ++ (if cfg.hasScheduler then [.schedulerStep vloss] else [])
      ++ (if decreased then [.saveCheckpoint] else [])
      ++ [.pollUpdate] }

/-- The `while epoch < n_epochs` loop of `_train`, iterated with explicit
fuel (the source loop is unbounded when the update file keeps rewinding the
epoch); `fileAt i` is the update-file state observed at the `i`-th boundary
poll.  Returns the concatenated event trace. -/
def train_loop (cfg : TrainCfg) (lossOf : Int → Nat → Rat)
    (predsOf : Int → Nat → List Rat) (train valid : List Batch)
    (fileAt : Nat → Option FileContent) :
    Nat → Nat → Int → Option Rat → List TrainEvent
  | 0, _, _, _ => []
  | fuel + 1, i, epoch, vmin =>
    if epoch < cfg.epochs then
      let o := train_epoch_body cfg lossOf predsOf train valid (fileAt i)
        epoch vmin
      o.events ++ train_loop cfg lossOf predsOf train valid fileAt fuel (i + 1)
        o.next_epoch o.next_min
    else []

/-- `ModelExecutor._test` restricted to its result bookkeeping: a fresh
`EpochResult(0, TEST)` is created, the model result's test entry is reset to a
fresh `DatasetResult`, started, the epoch result appended, every batch is run
through `_iter_batch` under no-grad, and the test entry is ended.  `lossOf`
and `predsOf` are the criterion/decoding oracles keyed by batch id; `t1`/`t2`
are the start/end clock readings. -/
def run_test (mr : ModelResult) (batches : List Batch) (lossOf : Nat → Rat)
    (predsOf : Nat → List Rat) (t1 t2 : Nat) : Except String ModelResult :=
  let test_epoch_result : EpochResult := ⟨0, TEST_DS_NAME, [], [], [], [], []⟩
  let mr1 := mr.reset TEST_DS_NAME
  match mr1.test.start t1 with
  | .error m => .error m
  | .ok started =>
    let er := run_phase test_epoch_result (fun b => lossOf b.id)
      (fun b => predsOf b.id) batches
    .ok { mr1 with test := (started.append er).endPhase t2 }

/-- The model settings consulted by `_execute`/`_prepare_datasets`. -/
structure ExecSettings where
  batch_iteration : String
  cache_batches : Bool
  batch_limit : Nat
deriving DecidableEq, Repr

/-- `ModelExecutor._prepare_datasets`: materializes up to `batch_limit`
batches per split for `'gpu'` and `'cpu'` iteration (device relocation and
the deallocation bookkeeping are not modelled), passes the source through
unchanged for `'buffered'` (count unknown, `none`), raises on an unknown
mode, then shuffles the first split through the oracle `shuffleF`
(`_preproces_training`; `rand.shuffle` on an empty dataset list raises
`IndexError`).  Returns the drawn-batch count and the per-split batch
lists. -/
def prepare_datasets (s : ExecSettings) (shuffleF : List Batch → List Batch)
    (ds_src : List (List Batch)) :
    Except String (Option Nat × List (List Batch)) :=
  let branch : Except String (Option Nat × List (List Batch)) :=
    if s.batch_iteration = "gpu" then
      let ds_dst := ds_src.map (fun src => src.take s.batch_limit)
      .ok (some ((ds_dst.map List.length).sum), ds_dst)
    else if s.batch_iteration = "cpu" then
      let ds_dst := ds_src.map (fun src => src.take s.batch_limit)
      .ok (some ((ds_dst.map List.length).sum), ds_dst)
    else if s.batch_iteration = "buffered" then
      .ok (none, ds_src)
    else
      .error ("no such batch iteration method: " ++ s.batch_iteration)
  match branch with
  | .error m => .error m
  | .ok (cnt, ds_dst) =>
    match ds_dst with
    | [] => .error "list index out of range"
    | d0 :: rest => .ok (cnt, shuffleF d0 :: rest)

/-- `ModelExecutor._execute`: raises the configuration error when
`cache_batches` is combined with `'buffered'` iteration before touching the
cache or the split provider; otherwise reuses the per-phase cache or
materializes the splits via `_prepare_datasets` (caching them when
configured) and runs the phase function (the `EarlyBailException` catch is
folded into the phase oracle's boolean result).  Returns the outcome, the
updated cache, and the number of batches drawn from the split provider during
this call. -/
def execute (s : ExecSettings) (shuffleF : List Batch → List Batch)
    (cached : List (String × List (List Batch))) (sets_name : String)
    (ds_src : List (List Batch)) (phase : List (List Batch) → Bool) :
    Except String Bool × List (String × List (List Batch)) × Nat :=
  if s.cache_batches = true ∧ s.batch_iteration = "buffered" then
    (.error "can not cache batches for batch iteration setting buffered",
     cached, 0)
  else
    match cached.lookup sets_name with
    | some ds_dst => (.ok (phase ds_dst), cached, 0)
    | none =>
      match prepare_datasets s shuffleF ds_src with
      | .error m => (.error m, cached, 0)
      | .ok (cnt, ds_dst) =>
        let cached' := if s.cache_batches then cached ++ [(sets_name, ds_dst)]
          else cached
        (.ok (phase ds_dst), cached', cnt.getD 0)

/-- Recognizer for scheduler events in a training trace. -/
def isSchedulerStep : TrainEvent → Bool
  | .schedulerStep _ => true
  | _ => false

/-- What the derived properties of an empty results container actually do:
the guarded ones (`ids`, `outcomes`, `labels`, `predictions`, `loss`,
`micro_metrics`, macro metrics) raise `NoResults`; `losses` returns the raw
loss list unguarded; `convergence` fails with `ValueError` from `min()` on an
empty sequence. -/
def noResultsGuards (e : EpochResult) (d : DatasetResult) : Prop :=
  (e.ids = .error .noResults ∧ e.outcomes = .error .noResults ∧
   e.labels = .error .noResults ∧ e.predictions = .error .noResults ∧
   e.loss = .error .noResults ∧ e.micro_metrics = .error .noResults ∧
   e.metricsMac = .error .noResults ∧
   e.losses = .ok e.loss_updates ∧
   (e.loss_updates = [] → e.convergence = .error .valueError)) ∧
  (d.ids = .error .noResults ∧ d.outcomes = .error .noResults ∧
   d.labels = .error .noResults ∧ d.predictions = .error .noResults ∧
   d.loss = .error .noResults ∧ d.micro_metrics = .error .noResults ∧
   d.metricsMac = .error .noResults ∧
   d.losses = .ok [] ∧ d.convergence = .error .valueError)

/-- A batch holding two data points (ids 0 and 1, labels 0). -/
def sampleBatch2 : Batch := ⟨0, [0, 1], 2, [0, 0]⟩

/-- The epoch result obtained from one `update` call on a fresh
`EpochResult(0, 'train')` with `sampleBatch2` and criterion loss 2 (the
recorded contribution is `2 * batch.size() = 4`). -/
def sampleEpoch : EpochResult :=
  EpochResult.update ⟨0, "train", [], [], [], [], []⟩ sampleBatch2 2 [0, 0] [0, 0] 2

/-- A fresh `EpochResult(0, 'train')` with no updates. -/
def emptyEpoch : EpochResult := ⟨0, "train", [], [], [], [], []⟩

/-- A dataset result containing `sampleEpoch` only. -/
def sampleDataset : DatasetResult := ⟨[sampleEpoch], none, none⟩

/-- A dataset result containing no epochs. -/
def emptyDataset : DatasetResult := ⟨[], none, none⟩

theorem applyUpdates_loss_updates : ∀ (us : List UpdateArgs) (e : EpochResult),
    (applyUpdates e us).loss_updates =
      e.loss_updates ++ us.map (fun u => u.loss * (u.batch.size : Rat))
  | [], e => by simp [applyUpdates]
  | u :: us, e => by
    simp [applyUpdates, List.foldl_cons] at *
    rw [show (us.foldl (fun e u => e.update u.batch u.loss u.labels u.preds
      u.label_shape0) (e.update u.batch u.loss u.labels u.preds u.label_shape0))
      = applyUpdates (e.update u.batch u.loss u.labels u.preds u.label_shape0) us
      from rfl]
    rw [applyUpdates_loss_updates us]
    simp [EpochResult.update]

theorem applyUpdates_id_updates : ∀ (us : List UpdateArgs) (e : EpochResult),
    (applyUpdates e us).id_updates =
      e.id_updates ++ us.map (fun u => u.batch.data_point_ids)
  | [], e => by simp [applyUpdates]
  | u :: us, e => by
    simp only [applyUpdates, List.foldl_cons]
    rw [show (us.foldl (fun e u => e.update u.batch u.loss u.labels u.preds
      u.label_shape0) (e.update u.batch u.loss u.labels u.preds u.label_shape0))
      = applyUpdates (e.update u.batch u.loss u.labels u.preds u.label_shape0) us
      from rfl]
    rw [applyUpdates_id_updates us]
    simp [EpochResult.update]

theorem applyUpdates_batch_ids : ∀ (us : List UpdateArgs) (e : EpochResult),
    (applyUpdates e us).batch_ids = e.batch_ids ++ us.map (fun u => u.batch.id)
  | [], e => by simp [applyUpdates]
  | u :: us, e => by
    simp only [applyUpdates, List.foldl_cons]
    rw [show (us.foldl (fun e u => e.update u.batch u.loss u.labels u.preds
      u.label_shape0) (e.update u.batch u.loss u.labels u.preds u.label_shape0))
      = applyUpdates (e.update u.batch u.loss u.labels u.preds u.label_shape0) us
      from rfl]
    rw [applyUpdates_batch_ids us]
    simp [EpochResult.update]

theorem applyUpdates_n_data_points : ∀ (us : List UpdateArgs) (e : EpochResult),
    (applyUpdates e us).n_data_points =
      e.n_data_points ++ us.map (fun u => u.label_shape0)
  | [], e => by simp [applyUpdates]
  | u :: us, e => by
    simp only [applyUpdates, List.foldl_cons]
    rw [show (us.foldl (fun e u => e.update u.batch u.loss u.labels u.preds
      u.label_shape0) (e.update u.batch u.loss u.labels u.preds u.label_shape0))
      = applyUpdates (e.update u.batch u.loss u.labels u.preds u.label_shape0) us
      from rfl]
    rw [applyUpdates_n_data_points us]
    simp [EpochResult.update]

theorem applyUpdates_prediction_updates : ∀ (us : List UpdateArgs) (e : EpochResult),
    (applyUpdates e us).prediction_updates =
      e.prediction_updates ++ us.map (fun u => (u.preds, u.labels))
  | [], e => by simp [applyUpdates]
  | u :: us, e => by
    simp only [applyUpdates, List.foldl_cons]
    rw [show (us.foldl (fun e u => e.update u.batch u.loss u.labels u.preds
      u.label_shape0) (e.update u.batch u.loss u.labels u.preds u.label_shape0))
      = applyUpdates (e.update u.batch u.loss u.labels u.preds u.label_shape0) us
      from rfl]
    rw [applyUpdates_prediction_updates us]
    simp [EpochResult.update]

theorem applyUpdates_index : ∀ (us : List UpdateArgs) (e : EpochResult),
    (applyUpdates e us).index = e.index
  | [], e => rfl
  | u :: us, e => by
    simp only [applyUpdates, List.foldl_cons]
    exact applyUpdates_index us _

theorem applyUpdates_split_type : ∀ (us : List UpdateArgs) (e : EpochResult),
    (applyUpdates e us).split_type = e.split_type
  | [], e => rfl
  | u :: us, e => by
    simp only [applyUpdates, List.foldl_cons]
    exact applyUpdates_split_type us _

theorem run_phase_eq_applyUpdates (f : Batch → Rat) (g : Batch → List Rat) :
    ∀ (bs : List Batch) (er0 : EpochResult),
    run_phase er0 f g bs =
      applyUpdates er0 (bs.map (fun b => ⟨b, f b, b.labels, g b, b.labels.length⟩))
  | [], er0 => rfl
  | b :: bs, er0 => by
    simp only [run_phase, List.foldl_cons, List.map_cons]
    exact run_phase_eq_applyUpdates f g bs _

/-- C1 (corrected, counterexample): after one `update` with a two-data-point
batch and criterion loss 2, the recorded loss contribution is 4 and
`get_loss` yields 4/2 = 2 — dividing by the number of recorded data-point ids
(2), not by the number of recorded batch losses (1), which would give 4. -/
theorem c1_counterexample :
    sampleEpoch.get_loss = .ok 2 ∧
    sampleEpoch.get_loss ≠
      .ok (sampleEpoch.loss_updates.sum / (sampleEpoch.loss_updates.length : Rat)) := by
  constructor
  · simp [sampleEpoch, sampleBatch2, EpochResult.update, EpochResult.get_loss,
      EpochResult.len, EpochResult.get_ids]
  · simp [sampleEpoch, sampleBatch2, EpochResult.update, EpochResult.get_loss,
      EpochResult.len, EpochResult.get_ids]

/-- C1 (corrected, amended): for every `EpochResult` built by a sequence of
`update` calls that recorded at least one data-point id, `get_loss` equals the
sum of the recorded loss contributions (each already multiplied by the batch
size) divided by the total number of recorded data-point ids (`len(self)`),
not by the number of batch losses. -/
theorem c1_amended (idx : Int) (split : String) (us : List UpdateArgs)
    (h : 0 < (us.map (fun u => u.batch.data_point_ids.length)).sum) :
    (applyUpdates ⟨idx, split, [], [], [], [], []⟩ us).get_loss =
      .ok ((us.map (fun u => u.loss * (u.batch.size : Rat))).sum /
        (((us.map (fun u => u.batch.data_point_ids.length)).sum : Nat) : Rat)) := by
  have hlen : (applyUpdates ⟨idx, split, [], [], [], [], []⟩ us).len =
      (us.map (fun u => u.batch.data_point_ids.length)).sum := by
    unfold EpochResult.len EpochResult.get_ids
    rw [applyUpdates_id_updates]
    simp [List.length_flatten, List.map_map, Function.comp_def]
  unfold EpochResult.get_loss
  rw [hlen, applyUpdates_loss_updates]
  simp [Nat.pos_iff_ne_zero.mp h]

/-- C1 witness: the amended statement evaluated after a single `update` with
`sampleBatch2` and loss 2: the average is 4/2 = 2. -/
theorem c1_witness :
    0 < (([⟨sampleBatch2, 2, [0, 0], [0, 0], 2⟩] : List UpdateArgs).map
        (fun u => u.batch.data_point_ids.length)).sum ∧
    (applyUpdates ⟨0, "train", [], [], [], [], []⟩
        [⟨sampleBatch2, 2, [0, 0], [0, 0], 2⟩]).get_loss =
      .ok ((([⟨sampleBatch2, 2, [0, 0], [0, 0], 2⟩] : List UpdateArgs).map
          (fun u => u.loss * (u.batch.size : Rat))).sum /
        (((([⟨sampleBatch2, 2, [0, 0], [0, 0], 2⟩] : List UpdateArgs).map
          (fun u => u.batch.data_point_ids.length)).sum : Nat) : Rat)) :=
  ⟨by decide, c1_amended 0 "train" _ (by decide)⟩

/-- C9 (confirmed): `update` appends exactly one element to each of the
per-batch losses, batch ids, data-point counts and stacked prediction/label
matrices, so any sequence of updates preserves the equal-length invariant. -/
theorem c9_theorem (e : EpochResult) (us : List UpdateArgs)
    (h : e.loss_updates.length = e.batch_ids.length ∧
         e.loss_updates.length = e.n_data_points.length ∧
         e.loss_updates.length = e.prediction_updates.length) :
    (applyUpdates e us).loss_updates.length = (applyUpdates e us).batch_ids.length ∧
    (applyUpdates e us).loss_updates.length = (applyUpdates e us).n_data_points.length ∧
    (applyUpdates e us).loss_updates.length = (applyUpdates e us).prediction_updates.length := by
  rw [applyUpdates_loss_updates, applyUpdates_batch_ids,
    applyUpdates_n_data_points, applyUpdates_prediction_updates]
  simp only [List.length_append, List.length_map]
  omega

/-- C9 witness: the invariant evaluated on a fresh epoch result after one
update. -/
theorem c9_witness :
    (emptyEpoch.loss_updates.length = emptyEpoch.batch_ids.length ∧
     emptyEpoch.loss_updates.length = emptyEpoch.n_data_points.length ∧
     emptyEpoch.loss_updates.length = emptyEpoch.prediction_updates.length) ∧
    ((applyUpdates emptyEpoch [⟨sampleBatch2, 2, [0, 0], [0, 0], 2⟩]).loss_updates.length =
       (applyUpdates emptyEpoch [⟨sampleBatch2, 2, [0, 0], [0, 0], 2⟩]).batch_ids.length ∧
     (applyUpdates emptyEpoch [⟨sampleBatch2, 2, [0, 0], [0, 0], 2⟩]).loss_updates.length =
       (applyUpdates emptyEpoch [⟨sampleBatch2, 2, [0, 0], [0, 0], 2⟩]).n_data_points.length ∧
     (applyUpdates emptyEpoch [⟨sampleBatch2, 2, [0, 0], [0, 0], 2⟩]).loss_updates.length =
       (applyUpdates emptyEpoch [⟨sampleBatch2, 2, [0, 0], [0, 0], 2⟩]).prediction_updates.length) :=
  ⟨by decide, c9_theorem emptyEpoch _ (by decide)⟩

theorem mapM_loss_ok : ∀ (rs : List EpochResult), (∀ r ∈ rs, 0 < r.len) →
    mapExcept EpochResult.loss rs =
      .ok (rs.map (fun r => r.loss_updates.sum / (r.len : Rat)))
  | [], _ => rfl
  | r :: rs, h => by
    have hr : 0 < r.len := h r (by simp)
    have hloss : EpochResult.loss r = .ok (r.loss_updates.sum / (r.len : Rat)) := by
      unfold EpochResult.loss EpochResult.contains_results EpochResult.get_loss
      simp [hr, Nat.pos_iff_ne_zero.mp hr]
    have ih := mapM_loss_ok rs (fun x hx => h x (List.mem_cons_of_mem _ hx))
    simp [mapExcept, hloss, ih, Bind.bind, Except.bind, Pure.pure, Except.pure]

/-- C2 (corrected, counterexample): a dataset result holding one epoch with a
single two-data-point batch whose recorded loss contribution is 4:
`DatasetResult.get_loss` returns (4/2)/2 = 1, while the claimed value
Σ(per-epoch Σ contributions) / Σ(per-epoch data-point counts) = 4/2 = 2. -/
theorem c2_counterexample :
    sampleDataset.get_loss = .ok 1 ∧
    sampleDataset.get_loss ≠
      .ok ((sampleDataset.results.map (fun r => r.loss_updates.sum)).sum /
        (((sampleDataset.results.map EpochResult.len).sum : Nat) : Rat)) := by
  have h : sampleDataset.get_loss = .ok 1 := by
    simp [sampleDataset, sampleEpoch, sampleBatch2, DatasetResult.get_loss,
      EpochResult.update, EpochResult.loss, EpochResult.contains_results,
      EpochResult.get_loss, EpochResult.len, EpochResult.get_ids,
      mapExcept, Bind.bind, Except.bind, Pure.pure, Except.pure]
  constructor
  · exact h
  · rw [h]
    simp [sampleDataset, sampleEpoch, sampleBatch2, EpochResult.update,
      EpochResult.len, EpochResult.get_ids]

/-- C2 (corrected, amended): for a dataset result whose epochs each recorded
at least one data-point id, `get_loss` sums the per-epoch *average* losses
(the guarded `loss` property of each epoch) and divides by the total
data-point count; it returns 0 when the dataset holds no epochs at all (a
dataset holding an empty epoch instead raises `NoResults` from that epoch's
`loss` property). -/
theorem c2_amended (d : DatasetResult) (h : ∀ r ∈ d.results, 0 < r.len) :
    d.get_loss = .ok (if d.results = [] then 0 else
      (d.results.map (fun r => r.loss_updates.sum / (r.len : Rat))).sum /
        (((d.results.map EpochResult.len).sum : Nat) : Rat)) := by
  unfold DatasetResult.get_loss
  rw [mapM_loss_ok d.results h]
  have hiff : (d.results.map EpochResult.len).sum = 0 ↔ d.results = [] := by
    constructor
    · intro hs
      cases hres : d.results with
      | nil => rfl
      | cons r rs =>
        exfalso
        have hr : 0 < r.len := h r (by simp [hres])
        rw [hres] at hs
        simp at hs
        omega
    · intro hres
      simp [hres]
  by_cases hres : d.results = []
  · simp [hres]
  · have hz : ¬ (d.results.map EpochResult.len).sum = 0 := fun hs => hres (hiff.mp hs)
    simp [hres, hz]

/-- C2 witness: the amended statement evaluated on `sampleDataset`
(one epoch, two data points, contribution 4): the dataset loss is
(4/2)/2 = 1. -/
theorem c2_witness :
    sampleDataset.get_loss = .ok (if sampleDataset.results = [] then 0 else
      (sampleDataset.results.map (fun r => r.loss_updates.sum / (r.len : Rat))).sum /
        (((sampleDataset.results.map EpochResult.len).sum : Nat) : Rat)) :=
  c2_amended sampleDataset (by decide)

/-- C8 (corrected, counterexample): on an empty epoch result the `losses`
property does not raise `NoResults` (it returns the empty list) and the
`convergence` property fails with `ValueError` from `min()` on an empty
sequence rather than with `NoResults`. -/
theorem c8_counterexample :
    emptyEpoch.losses = .ok [] ∧
    emptyEpoch.losses ≠ .error .noResults ∧
    emptyEpoch.convergence = .error .valueError ∧
    emptyEpoch.convergence ≠ .error .noResults := by
  refine ⟨rfl, by simp [emptyEpoch, EpochResult.losses, EpochResult.get_losses], rfl,
    by simp [emptyEpoch, EpochResult.convergence, EpochResult.losses,
      EpochResult.get_losses, convergence_of, Bind.bind, Except.bind]⟩

/-- C8 (corrected, amended): on an empty container the guarded derived
properties (`ids`, `outcomes`, `labels`, `predictions`, `loss`, micro and
macro metrics) raise `NoResults`, but `losses` returns the raw loss list with
no guard and `convergence` fails with `ValueError` (from `min` of an empty
sequence), not `NoResults`. -/
theorem c8_amended (e : EpochResult) (d : DatasetResult)
    (he : e.contains_results = false) (hd : d.results = []) :
    noResultsGuards e d := by
  have hd' : d.contains_results = false := by
    simp [DatasetResult.contains_results, DatasetResult.len,
      DatasetResult.get_ids, hd]
  unfold noResultsGuards
  refine ⟨⟨?_, ?_, ?_, ?_, ?_, ?_, ?_, ?_, ?_⟩, ⟨?_, ?_, ?_, ?_, ?_, ?_, ?_, ?_, ?_⟩⟩
  · simp [EpochResult.ids, he]
  · simp [EpochResult.outcomes, he]
  · simp [EpochResult.labels, he]
  · simp [EpochResult.predictions, he]
  · simp [EpochResult.loss, he]
  · simp [EpochResult.micro_metrics, he]
  · simp [EpochResult.metricsMac, he]
  · simp [EpochResult.losses, EpochResult.get_losses]
  · intro hl
    simp [EpochResult.convergence, EpochResult.losses, EpochResult.get_losses,
      hl, convergence_of, Bind.bind, Except.bind]
  · simp [DatasetResult.ids, hd']
  · simp [DatasetResult.outcomes, hd']
  · simp [DatasetResult.labels, hd']
  · simp [DatasetResult.predictions, hd']
  · simp [DatasetResult.loss, hd']
  · simp [DatasetResult.micro_metrics, hd']
  · simp [DatasetResult.metricsMac, hd']
  · simp [DatasetResult.losses, DatasetResult.get_losses, hd, mapExcept]
  · simp [DatasetResult.convergence, DatasetResult.losses,
      DatasetResult.get_losses, hd, mapExcept, convergence_of,
      Bind.bind, Except.bind, Pure.pure, Except.pure]

/-- C8 witness: the amended statement evaluated on the empty epoch and the
empty dataset result, with the convergence clause discharged at the empty
loss list. -/
theorem c8_witness :
    emptyEpoch.ids = .error .noResults ∧
    emptyEpoch.outcomes = .error .noResults ∧
    emptyEpoch.labels = .error .noResults ∧
    emptyEpoch.predictions = .error .noResults ∧
    emptyEpoch.loss = .error .noResults ∧
    emptyEpoch.micro_metrics = .error .noResults ∧
    emptyEpoch.metricsMac = .error .noResults ∧
    emptyEpoch.losses = .ok emptyEpoch.loss_updates ∧
    emptyEpoch.convergence = .error .valueError ∧
    emptyDataset.ids = .error .noResults ∧
    emptyDataset.outcomes = .error .noResults ∧
    emptyDataset.labels = .error .noResults ∧
    emptyDataset.predictions = .error .noResults ∧
    emptyDataset.loss = .error .noResults ∧
    emptyDataset.micro_metrics = .error .noResults ∧
    emptyDataset.metricsMac = .error .noResults ∧
    emptyDataset.losses = .ok [] ∧
    emptyDataset.convergence = .error .valueError := by
  obtain ⟨⟨h1, h2, h3, h4, h5, h6, h7, h8, h9⟩, g1, g2, g3, g4, g5, g6, g7, g8, g9⟩ :=
    c8_amended emptyEpoch emptyDataset rfl rfl
  exact ⟨h1, h2, h3, h4, h5, h6, h7, h8, h9 rfl, g1, g2, g3, g4, g5, g6, g7, g8, g9⟩

theorem parse_early_stop_unlinks (fs : Option FileContent) :
    (parse_early_stop true fs).2 = none := by
  cases fs with
  | none => rfl
  | some c => cases c <;> rfl

theorem read_status_unlinks (fs : Option FileContent) :
    (read_status true fs).2 = none := by
  cases fs with
  | none => rfl
  | some c => cases c <;> rfl

theorem epoch_update_fs (hp pb : Bool) (fs : Option FileContent) (epoch : Int) :
    (epoch_update hp pb fs epoch).fs = (parse_early_stop hp fs).2 := by
  unfold epoch_update
  by_cases h : (parse_early_stop hp fs).1 > 0 <;> simp [h]

theorem body_next_epoch (cfg : TrainCfg) (lossOf : Int → Nat → Rat)
    (predsOf : Int → Nat → List Rat) (train valid : List Batch)
    (fsNow : Option FileContent) (epoch : Int) (vmin : Option Rat) :
    (train_epoch_body cfg lossOf predsOf train valid fsNow epoch vmin).next_epoch
      = (epoch_update cfg.hasPath cfg.hasPbar fsNow epoch).epoch := rfl

theorem body_next_fs (cfg : TrainCfg) (lossOf : Int → Nat → Rat)
    (predsOf : Int → Nat → List Rat) (train valid : List Batch)
    (fsNow : Option FileContent) (epoch : Int) (vmin : Option Rat) :
    (train_epoch_body cfg lossOf predsOf train valid fsNow epoch vmin).next_fs
      = (epoch_update cfg.hasPath cfg.hasPbar fsNow epoch).fs := rfl

theorem body_pbar_events (cfg : TrainCfg) (lossOf : Int → Nat → Rat)
    (predsOf : Int → Nat → List Rat) (train valid : List Batch)
    (fsNow : Option FileContent) (epoch : Int) (vmin : Option Rat) :
    (train_epoch_body cfg lossOf predsOf train valid fsNow epoch vmin).pbar_events
      = (epoch_update cfg.hasPath cfg.hasPbar fsNow epoch).pbar := rfl

/-- C6 (confirmed): after the epoch-boundary poll the update file no longer
exists: both `_parse_early_stop` and `LifeCycleManager._read_status` unlink an
existing file whether or not its contents parse, and create nothing when it is
absent; hence the training loop's file state after any iteration is `none`. -/
theorem c6_theorem (cfg : TrainCfg) (lossOf : Int → Nat → Rat)
    (predsOf : Int → Nat → List Rat) (train valid : List Batch)
    (fsNow : Option FileContent) (epoch : Int) (vmin : Option Rat)
    (h : cfg.hasPath = true) :
    (train_epoch_body cfg lossOf predsOf train valid fsNow epoch vmin).next_fs = none ∧
    (parse_early_stop true fsNow).2 = none ∧
    (read_status true fsNow).2 = none := by
  refine ⟨?_, parse_early_stop_unlinks fsNow, read_status_unlinks fsNow⟩
  rw [body_next_fs, epoch_update_fs, h, parse_early_stop_unlinks]

/-- C6 witness: the poll on a malformed update file at epoch 0. -/
theorem c6_witness :
    (train_epoch_body ⟨10, false, true, false⟩ (fun _ _ => 0) (fun _ _ => [])
      [] [sampleBatch2] (some .malformed) 0 none).next_fs = none ∧
    (parse_early_stop true (some .malformed)).2 = none ∧
    (read_status true (some .malformed)).2 = none :=
  c6_theorem ⟨10, false, true, false⟩ (fun _ _ => 0) (fun _ _ => [])
    [] [sampleBatch2] (some .malformed) 0 none rfl

/-- C7 (confirmed): with `cache_batches` set and `'buffered'` batch
iteration, `_execute` raises the configuration error before consulting the
cache or drawing any batch from the split provider (drawn count 0, cache
unchanged). -/
theorem c7_theorem (s : ExecSettings) (shuffleF : List Batch → List Batch)
    (cached : List (String × List (List Batch))) (sets_name : String)
    (ds_src : List (List Batch)) (phase : List (List Batch) → Bool)
    (h1 : s.cache_batches = true) (h2 : s.batch_iteration = "buffered") :
    execute s shuffleF cached sets_name ds_src phase =
      (.error "can not cache batches for batch iteration setting buffered",
       cached, 0) := by
  unfold execute
  rw [if_pos ⟨h1, h2⟩]

/-- C7 witness: a buffered-with-caching configuration on a train phase. -/
theorem c7_witness :
    execute ⟨"buffered", true, 3⟩ id [] "train" [[sampleBatch2]] (fun _ => true) =
      (.error "can not cache batches for batch iteration setting buffered",
       [], 0) :=
  c7_theorem ⟨"buffered", true, 3⟩ id [] "train" [[sampleBatch2]]
    (fun _ => true) rfl rfl

/-- C10 (confirmed): `_test` on an executor holding a model result replaces
the test dataset result with a fresh one containing exactly one epoch result
of index 0 tagged with the test split, leaving the train and validation
dataset results unchanged. -/
theorem c10_theorem (mr : ModelResult) (batches : List Batch)
    (lossOf : Nat → Rat) (predsOf : Nat → List Rat) (t1 t2 : Nat) :
    ∃ (mr' : ModelResult) (er : EpochResult),
      run_test mr batches lossOf predsOf t1 t2 = .ok mr' ∧
      mr'.train = mr.train ∧ mr'.validation = mr.validation ∧
      mr'.test.results = [er] ∧ er.index = 0 ∧ er.split_type = TEST_DS_NAME := by
  refine ⟨_, run_phase ⟨0, TEST_DS_NAME, [], [], [], [], []⟩
    (fun b => lossOf b.id) (fun b => predsOf b.id) batches, rfl, rfl, rfl, rfl, ?_, ?_⟩
  · rw [run_phase_eq_applyUpdates, applyUpdates_index]
  · rw [run_phase_eq_applyUpdates, applyUpdates_split_type]

theorem epoch_update_withEpoch (pb : Bool) (E epoch : Int) :
    epoch_update true pb (some (.withEpoch E)) epoch =
      if 0 < E then ⟨E, none, if pb then [.reset, .advance E] else []⟩
      else ⟨epoch + 1, none, if pb then [.advance 1] else []⟩ := by
  unfold epoch_update parse_early_stop
  by_cases h : 0 < E <;> simp [h]

/-- C4 (corrected, counterexample): a well-formed update file containing
epoch 0 at current epoch 5 does not set the counter to 0: `_train` only
accepts `epoch_val > 0`, so the counter is incremented to 6 instead. -/
theorem c4_counterexample :
    (train_epoch_body ⟨10, false, true, false⟩ (fun _ _ => 0) (fun _ _ => [])
      [] [sampleBatch2] (some (.withEpoch 0)) 5 none).next_epoch = 6 ∧
    (6 : Int) ≠ 0 := by
  constructor
  · rw [body_next_epoch, epoch_update_withEpoch]
    simp
  · decide

/-- C4 (corrected, amended): when the update file holds a well-formed record
with epoch `E`, the training loop sets the epoch counter to `E` — and resets
and advances an existing progress bar by `E` — only for positive `E`; for
`E ≤ 0` the counter is incremented exactly as when no file exists (the bar
advancing by one). -/
theorem c4_amended (cfg : TrainCfg) (lossOf : Int → Nat → Rat)
    (predsOf : Int → Nat → List Rat) (train valid : List Batch)
    (E epoch : Int) (vmin : Option Rat) (h : cfg.hasPath = true) :
    ((0 : Int) < E →
      (train_epoch_body cfg lossOf predsOf train valid
        (some (.withEpoch E)) epoch vmin).next_epoch = E ∧
      (train_epoch_body cfg lossOf predsOf train valid
        (some (.withEpoch E)) epoch vmin).pbar_events =
        (if cfg.hasPbar then [.reset, .advance E] else [])) ∧
    (E ≤ 0 →
      (train_epoch_body cfg lossOf predsOf train valid
        (some (.withEpoch E)) epoch vmin).next_epoch = epoch + 1 ∧
      (train_epoch_body cfg lossOf predsOf train valid
        (some (.withEpoch E)) epoch vmin).pbar_events =
        (if cfg.hasPbar then [.advance 1] else [])) := by
  constructor
  · intro hE
    rw [body_next_epoch, body_pbar_events, h, epoch_update_withEpoch]
    simp [hE]
  · intro hE
    rw [body_next_epoch, body_pbar_events, h, epoch_update_withEpoch]
    simp [Int.not_lt.mpr hE]

/-- C4 witness: epoch 4 in the file at current epoch 2 with a progress bar:
the counter becomes 4 and the bar is reset and advanced by 4. -/
theorem c4_witness :
    (train_epoch_body ⟨10, false, true, true⟩ (fun _ _ => 0) (fun _ _ => [])
      [] [sampleBatch2] (some (.withEpoch 4)) 2 none).next_epoch = 4 ∧
    (train_epoch_body ⟨10, false, true, true⟩ (fun _ _ => 0) (fun _ _ => [])
      [] [sampleBatch2] (some (.withEpoch 4)) 2 none).pbar_events =
      [.reset, .advance 4] :=
  (c4_amended ⟨10, false, true, true⟩ (fun _ _ => 0) (fun _ _ => [])
    [] [sampleBatch2] 4 2 none rfl).1 (by decide)

theorem body_events (cfg : TrainCfg) (lossOf : Int → Nat → Rat)
    (predsOf : Int → Nat → List Rat) (train valid : List Batch)
    (fsNow : Option FileContent) (epoch : Int) (vmin : Option Rat) :
    (train_epoch_body cfg lossOf predsOf train valid fsNow epoch vmin).events =
      train.map (fun b => TrainEvent.trainBatch b.id)
      ++ valid.map (fun b => TrainEvent.validBatch b.id)
      ++ (if cfg.hasScheduler then
            [TrainEvent.schedulerStep
              ((valid.map (fun b => lossOf epoch b.id * (b.size : Rat))).sum /
                (valid.length : Rat))]
          else [])
      ++ (if ltInf (train_epoch_body cfg lossOf predsOf train valid fsNow
            epoch vmin).valid_result.ave_loss vmin
          then [TrainEvent.saveCheckpoint] else [])
      ++ [TrainEvent.pollUpdate] := rfl

theorem body_valid_result (cfg : TrainCfg) (lossOf : Int → Nat → Rat)
    (predsOf : Int → Nat → List Rat) (train valid : List Batch)
    (fsNow : Option FileContent) (epoch : Int) (vmin : Option Rat) :
    (train_epoch_body cfg lossOf predsOf train valid fsNow epoch vmin).valid_result =
      run_phase ⟨epoch, VALIDATION_DS_NAME, [], [], [], [], []⟩
        (fun b => lossOf epoch b.id) (fun b => predsOf epoch b.id) valid := rfl

theorem body_next_min (cfg : TrainCfg) (lossOf : Int → Nat → Rat)
    (predsOf : Int → Nat → List Rat) (train valid : List Batch)
    (fsNow : Option FileContent) (epoch : Int) (vmin : Option Rat) :
    (train_epoch_body cfg lossOf predsOf train valid fsNow epoch vmin).next_min =
      (if ltInf (train_epoch_body cfg lossOf predsOf train valid fsNow epoch
          vmin).valid_result.ave_loss vmin
       then some ((train_epoch_body cfg lossOf predsOf train valid fsNow epoch
          vmin).valid_result.ave_loss)
       else vmin) := rfl

theorem valid_loss_updates (lossOf : Int → Nat → Rat)
    (predsOf : Int → Nat → List Rat) (epoch : Int) (valid : List Batch) :
    (run_phase ⟨epoch, VALIDATION_DS_NAME, [], [], [], [], []⟩
        (fun b => lossOf epoch b.id) (fun b => predsOf epoch b.id) valid).loss_updates =
      valid.map (fun b => lossOf epoch b.id * (b.size : Rat)) := by
  rw [run_phase_eq_applyUpdates, applyUpdates_loss_updates]
  simp [List.map_map, Function.comp_def]

theorem filter_sched_train_evs (l : List Batch) :
    (l.map (fun b => TrainEvent.trainBatch b.id)).filter isSchedulerStep = [] := by
  induction l with
  | nil => rfl
  | cons b l ih => simp [isSchedulerStep, ih]

theorem filter_sched_valid_evs (l : List Batch) :
    (l.map (fun b => TrainEvent.validBatch b.id)).filter isSchedulerStep = [] := by
  induction l with
  | nil => rfl
  | cons b l ih => simp [isSchedulerStep, ih]

theorem filter_sched_save (c : Bool) :
    ((if c then [TrainEvent.saveCheckpoint] else []).filter isSchedulerStep) = [] := by
  cases c <;> simp [isSchedulerStep]

/-- C5 (corrected, amended): when a scheduler is configured, exactly one
`scheduler.step` happens per epoch, after the validation phase and with the
value Σ(batch loss × batch size) / (number of validation batches) — i.e. the
mean of the recorded loss contributions over the batch count (the spec's
`ave_loss`), which is not `EpochResult.get_loss` (that divides by the
data-point count). -/
theorem c5_amended (cfg : TrainCfg) (lossOf : Int → Nat → Rat)
    (predsOf : Int → Nat → List Rat) (train valid : List Batch)
    (fsNow : Option FileContent) (epoch : Int) (vmin : Option Rat)
    (hs : cfg.hasScheduler = true) (hv : valid ≠ []) :
    (train_epoch_body cfg lossOf predsOf train valid fsNow epoch
        vmin).events.filter isSchedulerStep =
      [TrainEvent.schedulerStep
        ((valid.map (fun b => lossOf epoch b.id * (b.size : Rat))).sum /
          (valid.length : Rat))] ∧
    (valid.map (fun b => lossOf epoch b.id * (b.size : Rat))).sum /
        (valid.length : Rat) =
      (train_epoch_body cfg lossOf predsOf train valid fsNow epoch
          vmin).valid_result.loss_updates.sum /
        ((train_epoch_body cfg lossOf predsOf train valid fsNow epoch
          vmin).valid_result.loss_updates.length : Rat) ∧
    (∃ post,
      (train_epoch_body cfg lossOf predsOf train valid fsNow epoch
        vmin).events =
        train.map (fun b => TrainEvent.trainBatch b.id)
        ++ valid.map (fun b => TrainEvent.validBatch b.id)
        ++ [TrainEvent.schedulerStep
            ((valid.map (fun b => lossOf epoch b.id * (b.size : Rat))).sum /
              (valid.length : Rat))]
        ++ post ∧
      (∀ q : Rat, TrainEvent.schedulerStep q ∉ post)) := by
  refine ⟨?_, ?_, ?_⟩
  · rw [body_events]
    simp only [List.filter_append, filter_sched_train_evs,
      filter_sched_valid_evs, filter_sched_save, hs, if_true,
      List.nil_append, List.append_nil]
    simp [isSchedulerStep]
  · rw [body_valid_result, valid_loss_updates]
    simp
  · refine ⟨(if ltInf (train_epoch_body cfg lossOf predsOf train valid fsNow
        epoch vmin).valid_result.ave_loss vmin
      then [TrainEvent.saveCheckpoint] else []) ++ [TrainEvent.pollUpdate],
      ?_, ?_⟩
    · rw [body_events, hs]
      simp [List.append_assoc]
    · intro q
      by_cases hd : ltInf (train_epoch_body cfg lossOf predsOf train valid
          fsNow epoch vmin).valid_result.ave_loss vmin <;> simp [hd]

/-- C5 (corrected, counterexample): one validation batch of two data points
with criterion loss 1: the scheduler receives (1·2)/1 = 2, while the epoch's
average loss per `get_loss` is (1·2)/2 = 1. -/
theorem c5_counterexample :
    (train_epoch_body ⟨1, true, false, false⟩ (fun _ _ => 1) (fun _ _ => [0, 0])
        [] [sampleBatch2] none 0 none).events.filter isSchedulerStep =
      [TrainEvent.schedulerStep 2] ∧
    (train_epoch_body ⟨1, true, false, false⟩ (fun _ _ => 1) (fun _ _ => [0, 0])
        [] [sampleBatch2] none 0 none).valid_result.get_loss = .ok 1 ∧
    (2 : Rat) ≠ 1 := by
  refine ⟨?_, ?_, by norm_num⟩
  · rw [body_events]
    simp [sampleBatch2, isSchedulerStep, filter_sched_save]
  · rw [body_valid_result]
    simp [run_phase, iter_batch, EpochResult.update, sampleBatch2,
      EpochResult.get_loss, EpochResult.len, EpochResult.get_ids]

/-- C5 witness: the amended statement evaluated with one validation batch of
two data points and criterion loss 1. -/
theorem c5_witness :
    (train_epoch_body ⟨1, true, false, false⟩ (fun _ _ => 1) (fun _ _ => [0, 0])
        [] [sampleBatch2] none 0 none).events.filter isSchedulerStep =
      [TrainEvent.schedulerStep
        (([sampleBatch2].map (fun b => (fun _ _ => (1 : Rat)) (0 : Int) b.id *
            (b.size : Rat))).sum / (([sampleBatch2] : List Batch).length : Rat))] ∧
    (([sampleBatch2].map (fun b => (fun _ _ => (1 : Rat)) (0 : Int) b.id *
        (b.size : Rat))).sum / (([sampleBatch2] : List Batch).length : Rat)) =
      (train_epoch_body ⟨1, true, false, false⟩ (fun _ _ => 1)
          (fun _ _ => [0, 0]) [] [sampleBatch2] none 0
          none).valid_result.loss_updates.sum /
        ((train_epoch_body ⟨1, true, false, false⟩ (fun _ _ => 1)
          (fun _ _ => [0, 0]) [] [sampleBatch2] none 0
          none).valid_result.loss_updates.length : Rat) ∧
    (∃ post,
      (train_epoch_body ⟨1, true, false, false⟩ (fun _ _ => 1)
        (fun _ _ => [0, 0]) [] [sampleBatch2] none 0 none).events =
        ([] : List Batch).map (fun b => TrainEvent.trainBatch b.id)
        ++ [sampleBatch2].map (fun b => TrainEvent.validBatch b.id)
        ++ [TrainEvent.schedulerStep
            (([sampleBatch2].map (fun b => (fun _ _ => (1 : Rat)) (0 : Int) b.id *
                (b.size : Rat))).sum /
              (([sampleBatch2] : List Batch).length : Rat))]
        ++ post ∧
      (∀ q : Rat, TrainEvent.schedulerStep q ∉ post)) :=
  c5_amended ⟨1, true, false, false⟩ (fun _ _ => 1) (fun _ _ => [0, 0])
    [] [sampleBatch2] none 0 none rfl (by simp)

theorem save_not_mem_train_evs (l : List Batch) :
    TrainEvent.saveCheckpoint ∉ l.map (fun b => TrainEvent.trainBatch b.id) := by
  simp

theorem save_not_mem_valid_evs (l : List Batch) :
    TrainEvent.saveCheckpoint ∉ l.map (fun b => TrainEvent.validBatch b.id) := by
  simp

theorem save_not_mem_sched (c : Bool) (v : Rat) :
    TrainEvent.saveCheckpoint ∉ (if c then [TrainEvent.schedulerStep v] else []) := by
  cases c <;> simp

theorem poll_not_mem_train_evs (l : List Batch) :
    TrainEvent.pollUpdate ∉ l.map (fun b => TrainEvent.trainBatch b.id) := by
  simp

theorem poll_not_mem_valid_evs (l : List Batch) :
    TrainEvent.pollUpdate ∉ l.map (fun b => TrainEvent.validBatch b.id) := by
  simp

theorem poll_not_mem_sched (c : Bool) (v : Rat) :
    TrainEvent.pollUpdate ∉ (if c then [TrainEvent.schedulerStep v] else []) := by
  cases c <;> simp

/-- C3 (confirmed): in every training epoch the checkpoint save event is
emitted exactly when the epoch's validation loss beats the running minimum
(the `if` below), the save precedes the update-file poll of the same epoch,
the running minimum is updated accordingly, a `none` (+∞) minimum — the
initial state — always saves, and the loop started from the initial state
saves in its first iteration. -/
theorem c3_theorem (cfg : TrainCfg) (lossOf : Int → Nat → Rat)
    (predsOf : Int → Nat → List Rat) (train valid : List Batch)
    (fsNow : Option FileContent) (epoch : Int) (vmin : Option Rat)
    (fileAt : Nat → Option FileContent) (fuel : Nat)
    (hv : valid ≠ []) (he : 0 < cfg.epochs) :
    (∃ pre,
      (train_epoch_body cfg lossOf predsOf train valid fsNow epoch vmin).events =
        pre ++ (if ltInf (train_epoch_body cfg lossOf predsOf train valid fsNow
            epoch vmin).valid_result.ave_loss vmin
          then [TrainEvent.saveCheckpoint] else []) ++ [TrainEvent.pollUpdate] ∧
      TrainEvent.saveCheckpoint ∉ pre ∧ TrainEvent.pollUpdate ∉ pre) ∧
    ((train_epoch_body cfg lossOf predsOf train valid fsNow epoch vmin).next_min =
      (if ltInf (train_epoch_body cfg lossOf predsOf train valid fsNow epoch
          vmin).valid_result.ave_loss vmin
       then some ((train_epoch_body cfg lossOf predsOf train valid fsNow epoch
          vmin).valid_result.ave_loss)
       else vmin)) ∧
    (vmin = none →
      TrainEvent.saveCheckpoint ∈
        (train_epoch_body cfg lossOf predsOf train valid fsNow epoch vmin).events) ∧
    TrainEvent.saveCheckpoint ∈
      train_loop cfg lossOf predsOf train valid fileAt (fuel + 1) 0 0 none := by
  have hmem : ∀ (fs' : Option FileContent) (ep : Int),
      TrainEvent.saveCheckpoint ∈
        (train_epoch_body cfg lossOf predsOf train valid fs' ep none).events := by
    intro fs' ep
    rw [body_events]
    have : ltInf (train_epoch_body cfg lossOf predsOf train valid fs' ep
        none).valid_result.ave_loss none = true := rfl
    rw [this]
    simp
  refine ⟨?_, body_next_min cfg lossOf predsOf train valid fsNow epoch vmin,
    fun hm => by rw [hm]; exact hmem fsNow epoch, ?_⟩
  · refine ⟨train.map (fun b => TrainEvent.trainBatch b.id)
      ++ valid.map (fun b => TrainEvent.validBatch b.id)
      ++ (if cfg.hasScheduler then
            [TrainEvent.schedulerStep
              ((valid.map (fun b => lossOf epoch b.id * (b.size : Rat))).sum /
                (valid.length : Rat))]
          else []), ?_, ?_, ?_⟩
    · rw [body_events]
    · simp only [List.mem_append]
      rintro ((h | h) | h)
      · exact save_not_mem_train_evs train h
      · exact save_not_mem_valid_evs valid h
      · exact save_not_mem_sched cfg.hasScheduler _ h
    · simp only [List.mem_append]
      rintro ((h | h) | h)
      · exact poll_not_mem_train_evs train h
      · exact poll_not_mem_valid_evs valid h
      · exact poll_not_mem_sched cfg.hasScheduler _ h
  · rw [train_loop]
    rw [if_pos he]
    exact List.mem_append_left _ (hmem (fileAt 0) 0)

/-- C3 witness: a one-epoch run with one validation batch: the first epoch
saves before it polls, the minimum is set, and the loop's first iteration
saves. -/
theorem c3_witness :
    (∃ pre,
      (train_epoch_body ⟨1, false, false, false⟩ (fun _ _ => 1)
        (fun _ _ => [0, 0]) [] [sampleBatch2] none 0 none).events =
        pre ++ (if ltInf (train_epoch_body ⟨1, false, false, false⟩
            (fun _ _ => 1) (fun _ _ => [0, 0]) [] [sampleBatch2] none 0
            none).valid_result.ave_loss none
          then [TrainEvent.saveCheckpoint] else []) ++ [TrainEvent.pollUpdate] ∧
      TrainEvent.saveCheckpoint ∉ pre ∧ TrainEvent.pollUpdate ∉ pre) ∧
    ((train_epoch_body ⟨1, false, false, false⟩ (fun _ _ => 1)
        (fun _ _ => [0, 0]) [] [sampleBatch2] none 0 none).next_min =
      (if ltInf (train_epoch_body ⟨1, false, false, false⟩ (fun _ _ => 1)
          (fun _ _ => [0, 0]) [] [sampleBatch2] none 0
          none).valid_result.ave_loss none
       then some ((train_epoch_body ⟨1, false, false, false⟩ (fun _ _ => 1)
          (fun _ _ => [0, 0]) [] [sampleBatch2] none 0
          none).valid_result.ave_loss)
       else none)) ∧
    TrainEvent.saveCheckpoint ∈
      (train_epoch_body ⟨1, false, false, false⟩ (fun _ _ => 1)
        (fun _ _ => [0, 0]) [] [sampleBatch2] none 0 none).events ∧
    TrainEvent.saveCheckpoint ∈
      train_loop ⟨1, false, false, false⟩ (fun _ _ => 1) (fun _ _ => [0, 0])
        [] [sampleBatch2] (fun _ => none) (0 + 1) 0 0 none := by
  obtain ⟨h1, h2, h3, h4⟩ :=
    c3_theorem ⟨1, false, false, false⟩ (fun _ _ => 1) (fun _ _ => [0, 0])
      [] [sampleBatch2] none 0 none (fun _ => none) 0 (by simp) (by decide)
  exact ⟨h1, h2, h3 rfl, h4⟩
